import Mathlib

/-!
Verification of the WhatsApp-style task-scheduler dialog engine
(`src/app/page.tsx`).

The page is a React component; its behaviour per user turn is a pure
function of the rendered state snapshot.  We embed it shallowly:

* React `useState` cells become fields of `EngineState`.
* One event-handler invocation (one user turn) becomes a pure function.
  Inside a turn, reads of a state variable see the render *snapshot*,
  while the queued `setX` updates accumulate; we model this by giving
  every handler both the snapshot (`snap`, for reads) and the
  accumulated state (`acc`, which plain `setX(v)` overwrites and
  functional `setX(fun prev => ...)` transforms).
* `crypto.randomUUID()` becomes an explicit `fresh : String` argument.
* JavaScript string helpers (`trim`, `toLowerCase`, `includes`,
  `startsWith`, the `parseIndex` regex) are modelled over `String.data`
  character lists; the inputs of interest are ASCII, where these agree
  with the JS semantics.
* `Message.id`/`Message.timestamp` are display-only
  (`crypto.randomUUID()` / clock); the claims never mention them, so a
  `Message` is its role and content.
-/

namespace TaskScheduler

/-! ### JavaScript string primitives -/

/-- JS `String.prototype.trim` over the character list. -/
def jsTrim (s : String) : String :=
  ⟨((s.data.dropWhile Char.isWhitespace).reverse.dropWhile Char.isWhitespace).reverse⟩

/-- JS `String.prototype.toLowerCase` (ASCII fragment). -/
def jsToLower (s : String) : String :=
  ⟨s.data.map Char.toLower⟩

/-- Substring test on character lists: does `pat` occur inside `l`? -/
def containsSub : List Char → List Char → Bool
  | [], pat => pat.isEmpty
  | c :: t, pat => pat.isPrefixOf (c :: t) || containsSub t pat

/-- JS `String.prototype.includes`. -/
def jsIncludes (s pat : String) : Bool :=
  containsSub s.data pat.data

/-- JS `String.prototype.startsWith`. -/
def jsStartsWith (s pat : String) : Bool :=
  pat.data.isPrefixOf s.data

/-- Numeric value of a list of decimal digit characters. -/
def digitsToNat (l : List Char) : Nat :=
  l.foldl (fun a c => 10 * a + (c.toNat - 48)) 0

/-- `parseIndex` (page.tsx:58-63): `value.trim().match(/^(?:#)?(\d+)/)`,
returning the matched number minus one, or `null` when the trimmed value
does not start with an optional `#` followed by at least one digit. -/
def parseIndex (value : String) : Option Int :=
  let t := (jsTrim value).data
  let t := if t.head? = some '#' then t.tail else t
  let ds := t.takeWhile Char.isDigit
  if ds.isEmpty then none
  else some ((digitsToNat ds : Int) - 1)

/-! ### Data model (page.tsx:5-36) -/

inductive Role where
  | assistant
  | user
deriving DecidableEq

structure Message where
  role : Role
  content : String
deriving DecidableEq

inductive Priority where
  | High
  | Medium
  | Low
deriving DecidableEq

def priorityLabel : Priority → String
  | .High => "High"
  | .Medium => "Medium"
  | .Low => "Low"

structure Task where
  id : String
  title : String
  due : String
  priority : Priority
  reminder : Option String
deriving DecidableEq

structure QuickAction where
  label : String
  value : String
deriving DecidableEq

def priorityOptions : List Priority := [.High, .Medium, .Low]

def idleActions : List QuickAction :=
  [⟨"Add Task", "Add Task"⟩,
   ⟨"Update Task", "Update Task"⟩,
   ⟨"Delete Task", "Delete Task"⟩,
   ⟨"View Tasks", "View Tasks"⟩]

/-- The five values of the `action` state cell (page.tsx:69). -/
inductive Action where
  | idle
  | add
  | update
  | delete
  | view
deriving DecidableEq

/-- The four field names the Update flow accepts at its field-selection
step (page.tsx:262); `pendingField` only ever holds one of these. -/
inductive Field where
  | title
  | due
  | priority
  | reminder
deriving DecidableEq

def fieldOfString (s : String) : Option Field :=
  if s = "title" then some .title
  else if s = "due" then some .due
  else if s = "priority" then some .priority
  else if s = "reminder" then some .reminder
  else none

/-- `Partial<Task>` as the code actually populates it (the `id` key is
never written into a draft).  A `some` models the key being present;
`reminder? = some none` models the key present with value `null`. -/
structure PendingTask where
  title? : Option String := none
  due? : Option String := none
  priority? : Option Priority := none
  reminder? : Option (Option String) := none
deriving DecidableEq

/-- `{ priority: 'Medium' }`, the draft reset value (page.tsx:71,114,127). -/
def defaultPending : PendingTask := { priority? := some .Medium }

/-- JS object spread `{...t, ...p}`: keys present in `p` override. -/
def mergeTask (t : Task) (p : PendingTask) : Task :=
  { id := t.id
    title := p.title?.getD t.title
    due := p.due?.getD t.due
    priority := p.priority?.getD t.priority
    reminder := p.reminder?.getD t.reminder }

/-- The `useState` cells of the component that the dialog engine reads
and writes (page.tsx:66-74), minus the text-input box and the scroll ref. -/
structure EngineState where
  messages : List Message
  tasks : List Task
  action : Action
  flowStep : Nat
  pendingTask : PendingTask
  selectedTaskId : Option String
  pendingField : Option Field
  buttons : List QuickAction
deriving DecidableEq

/-! ### Shared operations (page.tsx:99-123) -/

def pushMessage (role : Role) (content : String) (acc : EngineState) : EngineState :=
  { acc with messages := acc.messages ++ [⟨role, content⟩] }

def resetConversation (acc : EngineState) : EngineState :=
  { acc with
    action := .idle
    flowStep := 0
    pendingTask := defaultPending
    selectedTaskId := none
    pendingField := none
    buttons := idleActions }

def showIdleOptions (acc : EngineState) : EngineState :=
  resetConversation
    (pushMessage .assistant "Anything else I can help with? Add, update, delete, or view tasks." acc)

/-- `Task: …\nDue: …\nPriority: …\nReminder: …` summary block
(page.tsx:210-215, 327-332, 357-362). -/
def taskSummary (t : Task) : String :=
  "Task: " ++ t.title ++ "\nDue: " ++ t.due ++ "\nPriority: " ++ priorityLabel t.priority
    ++ "\nReminder: " ++ (t.reminder.getD "None")

/-- `#${index + 1} ${title} — Due: … — Priority: …` listing line
(page.tsx:232-234, 405-407). -/
def taskLine (i : Nat) (t : Task) : String :=
  "#" ++ toString (i + 1) ++ " " ++ t.title ++ " — Due: " ++ t.due
    ++ " — Priority: " ++ priorityLabel t.priority

def taskListing (ts : List Task) : String :=
  String.intercalate "\n" (ts.enum.map (fun p => taskLine p.1 p.2))

def saveButtons : List QuickAction :=
  [⟨"Yes, save", "yes"⟩, ⟨"No, cancel", "no"⟩]

def findPriority (userInput : String) : Option Priority :=
  priorityOptions.find? (fun p => jsToLower (priorityLabel p) = jsToLower (jsTrim userInput))

/-! ### Add flow (page.tsx:125-223) -/

/-- The Add flow's sequential `if (flowStep === k)` chain, one arm per
step; no arm applies for steps beyond 6 (the handler falls through and
changes nothing). -/
def handleAddFlow (fresh : String) (snap : EngineState) (userInput : String)
    (acc : EngineState) : EngineState :=
  match snap.flowStep with
  | 0 =>
    let acc := { acc with pendingTask := defaultPending }
    let acc := pushMessage .assistant "Great! What is the task?" acc
    { acc with flowStep := 1, buttons := [] }
  | 1 =>
    let acc := { acc with pendingTask := { acc.pendingTask with title? := some (jsTrim userInput) } }
    let acc := pushMessage .assistant "Got it. When is it due? (e.g. \"24 Apr 5pm\")" acc
    { acc with flowStep := 2 }
  | 2 =>
    let acc := { acc with pendingTask := { acc.pendingTask with due? := some (jsTrim userInput) } }
    let acc := pushMessage .assistant "Any priority? High, Medium, or Low?" acc
    { acc with
      buttons := priorityOptions.map (fun p => ⟨priorityLabel p, priorityLabel p⟩)
      flowStep := 3 }
  | 3 =>
    match findPriority userInput with
    | none => pushMessage .assistant "Please choose between High, Medium, or Low." acc
    | some priority =>
      let acc := { acc with pendingTask := { acc.pendingTask with priority? := some priority } }
      let acc := { acc with buttons := [⟨"Yes, add reminder", "yes"⟩, ⟨"No reminder", "no"⟩] }
      let acc := pushMessage .assistant "Do you want to add a reminder?" acc
      { acc with flowStep := 4 }
  | 4 =>
    if jsStartsWith (jsToLower (jsTrim userInput)) "y" then
      let acc := pushMessage .assistant "Sure, when should I remind you?" acc
      { acc with flowStep := 5, buttons := [] }
    else if jsStartsWith (jsToLower (jsTrim userInput)) "n" then
      let acc := { acc with pendingTask := { acc.pendingTask with reminder? := some none } }
      let acc := pushMessage .assistant "Here is what I captured. Save it? (yes/no)" acc
      { acc with flowStep := 6, buttons := saveButtons }
    else
      pushMessage .assistant "Please say yes or no for the reminder." acc
  | 5 =>
    let acc := { acc with pendingTask := { acc.pendingTask with reminder? := some (some (jsTrim userInput)) } }
    let acc := pushMessage .assistant "Thanks! Shall I save it? (yes/no)" acc
    { acc with flowStep := 6, buttons := saveButtons }
  | 6 =>
    if jsStartsWith (jsToLower (jsTrim userInput)) "y" then
      let task : Task :=
        { id := fresh
          title := (snap.pendingTask.title?.map jsTrim).getD "Untitled task"
          due := (snap.pendingTask.due?.map jsTrim).getD "No due date"
          priority := snap.pendingTask.priority?.getD .Medium
          reminder := snap.pendingTask.reminder?.getD none }
      let acc := { acc with tasks := snap.tasks ++ [task] }
      let acc := pushMessage .assistant ("All set!\n" ++ taskSummary task) acc
      showIdleOptions acc
    else
      showIdleOptions (pushMessage .assistant "No worries, I will discard that task." acc)
  | _ + 7 =>
    acc

/-! ### Update flow (page.tsx:225-396) -/

/-- The tail of Update steps 3 and 4: stash the delta, preview the merge,
offer save yes/no, advance to step 5 (page.tsx:323-340, 356-370). -/
def updatePreview (intro : String) (currentTask : Task) (updateDraft : PendingTask)
    (acc : EngineState) : EngineState :=
  let preview := mergeTask currentTask updateDraft
  let acc := { acc with pendingTask := updateDraft }
  let acc := pushMessage .assistant (intro ++ "\n" ++ taskSummary preview ++ "\nSave it? (yes/no)") acc
  { acc with buttons := saveButtons, flowStep := 5 }

def handleUpdateFlow (snap : EngineState) (userInput : String)
    (acc : EngineState) : EngineState :=
  match snap.flowStep with
  | 0 =>
    if snap.tasks.length = 0 then
      resetConversation (pushMessage .assistant "You have no tasks yet. Let’s add one." acc)
    else
      let acc := pushMessage .assistant
        ("Which task do you want to update?\n" ++ taskListing snap.tasks) acc
      { acc with flowStep := 1 }
  | 1 =>
    match parseIndex userInput with
    | none => pushMessage .assistant "Please pick a valid task number." acc
    | some index =>
      -- `index === null || index < 0 || index >= tasks.length`, `||` short-circuit
      if index < 0 then
        pushMessage .assistant "Please pick a valid task number." acc
      else if (snap.tasks.length : Int) ≤ index then
        pushMessage .assistant "Please pick a valid task number." acc
      else
        match snap.tasks.get? index.toNat with
        | none => acc  -- dead: the range check guarantees the lookup succeeds
        | some task =>
          let acc := { acc with selectedTaskId := some task.id }
          let acc := pushMessage .assistant "What do you want to change?" acc
          { acc with
            buttons := [⟨"Task name", "title"⟩, ⟨"Due date & time", "due"⟩,
                        ⟨"Priority", "priority"⟩, ⟨"Reminder", "reminder"⟩]
            flowStep := 2 }
  | 2 =>
    match fieldOfString (jsToLower (jsTrim userInput)) with
    | none => pushMessage .assistant "Please choose title, due, priority, or reminder." acc
    | some f =>
      let acc := { acc with pendingField := some f }
      let acc :=
        if f = .priority then
          pushMessage .assistant "New priority? (High/Medium/Low)"
            { acc with buttons := priorityOptions.map (fun p => ⟨priorityLabel p, priorityLabel p⟩) }
        else if f = .reminder then
          pushMessage .assistant "Want to update the reminder or remove it?"
            { acc with buttons := [⟨"Update reminder", "update"⟩, ⟨"Remove reminder", "remove"⟩] }
        else
          pushMessage .assistant
            ("Alright, what is the new "
              ++ (if f = .title then "task name" else "due date & time") ++ "?")
            { acc with buttons := [] }
      { acc with flowStep := 3 }
  | 3 =>
    match snap.selectedTaskId with
    | none => resetConversation (pushMessage .assistant "Let’s start over." acc)
    | some sel =>
      match snap.tasks.find? (fun t => t.id = sel) with
      | none => resetConversation (pushMessage .assistant "I could not find that task. Let’s try again." acc)
      | some currentTask =>
        if snap.pendingField = some .priority then
          match findPriority userInput with
          | none => pushMessage .assistant "Priority should be High, Medium, or Low." acc
          | some priority =>
            updatePreview "Here is the updated version:" currentTask { priority? := some priority } acc
        else if snap.pendingField = some .reminder then
          if jsToLower (jsTrim userInput) = "remove" then
            updatePreview "Here is the updated version:" currentTask { reminder? := some none } acc
          else if jsToLower (jsTrim userInput) = "update" then
            let acc := pushMessage .assistant "What is the new reminder time?" acc
            { acc with flowStep := 4, buttons := [] }
          else
            updatePreview "Here is the updated version:" currentTask
              { reminder? := some (some (jsTrim userInput)) } acc
        else if snap.pendingField = some .title then
          updatePreview "Here is the updated version:" currentTask { title? := some (jsTrim userInput) } acc
        else if snap.pendingField = some .due then
          updatePreview "Here is the updated version:" currentTask { due? := some (jsTrim userInput) } acc
        else
          updatePreview "Here is the updated version:" currentTask {} acc
  | 4 =>
    match snap.selectedTaskId with
    | none => resetConversation (pushMessage .assistant "Let’s start over." acc)
    | some sel =>
      match snap.tasks.find? (fun t => t.id = sel) with
      | none => resetConversation (pushMessage .assistant "Task not found, sorry." acc)
      | some currentTask =>
        updatePreview "Updated reminder ready:" currentTask
          { reminder? := some (some (jsTrim userInput)) } acc
  | 5 =>
    match snap.selectedTaskId with
    | none => resetConversation (pushMessage .assistant "Looks like that task vanished." acc)
    | some sel =>
      if jsStartsWith (jsToLower (jsTrim userInput)) "y" then
        let acc := { acc with
          tasks := acc.tasks.map (fun t => if t.id = sel then mergeTask t snap.pendingTask else t) }
        showIdleOptions (pushMessage .assistant "Updated! Anything else?" acc)
      else
        showIdleOptions (pushMessage .assistant "No changes saved." acc)
  | _ + 6 =>
    acc

/-! ### Delete flow (page.tsx:398-447) -/

def handleDeleteFlow (snap : EngineState) (userInput : String)
    (acc : EngineState) : EngineState :=
  match snap.flowStep with
  | 0 =>
    if snap.tasks.length = 0 then
      resetConversation
        (pushMessage .assistant "No tasks to delete right now. Want to add one instead?" acc)
    else
      let acc := pushMessage .assistant
        ("Got it. Which task should I delete?\n" ++ taskListing snap.tasks) acc
      { acc with flowStep := 1 }
  | 1 =>
    match parseIndex userInput with
    | none => pushMessage .assistant "Please choose a valid task number." acc
    | some index =>
      if index < 0 then
        pushMessage .assistant "Please choose a valid task number." acc
      else if (snap.tasks.length : Int) ≤ index then
        pushMessage .assistant "Please choose a valid task number." acc
      else
        match snap.tasks.get? index.toNat with
        | none => acc  -- dead: the range check guarantees the lookup succeeds
        | some task =>
          let acc := { acc with selectedTaskId := some task.id }
          let acc := pushMessage .assistant
            ("Just to confirm, delete \"" ++ task.title ++ "\" due " ++ task.due ++ "? (yes/no)") acc
          { acc with buttons := [⟨"Yes, delete", "yes"⟩, ⟨"No, keep it", "no"⟩], flowStep := 2 }
  | 2 =>
    match snap.selectedTaskId with
    | none => resetConversation (pushMessage .assistant "Task already gone." acc)
    | some sel =>
      if jsStartsWith (jsToLower (jsTrim userInput)) "y" then
        let acc := { acc with tasks := acc.tasks.filter (fun t => ¬ t.id = sel) }
        showIdleOptions (pushMessage .assistant "Done! Task removed." acc)
      else
        showIdleOptions (pushMessage .assistant "Okay, nothing deleted." acc)
  | _ + 3 =>
    acc

/-! ### View flow (page.tsx:449-463) -/

def viewListing (ts : List Task) : String :=
  String.intercalate "\n\n"
    (ts.map (fun t =>
      "• " ++ t.title ++ "\n  Due: " ++ t.due ++ "\n  Priority: " ++ priorityLabel t.priority
        ++ "\n  Reminder: " ++ (t.reminder.getD "None")))

def handleViewFlow (snap : EngineState) (acc : EngineState) : EngineState :=
  if snap.tasks.length = 0 then
    resetConversation (pushMessage .assistant "You do not have any tasks yet. Ready to add one?" acc)
  else
    showIdleOptions
      (pushMessage .assistant ("Here is what is on your list:\n" ++ viewListing snap.tasks) acc)

/-! ### Router and entry point (page.tsx:465-518) -/

def routeInput (fresh : String) (snap : EngineState) (userInput : String) : EngineState :=
  match snap.action with
  | .idle =>
    let intent := jsToLower (jsTrim userInput)
    if jsIncludes intent "add" then
      handleAddFlow fresh snap "" { snap with action := .add, flowStep := 0, buttons := [] }
    else if jsIncludes intent "update" then
      handleUpdateFlow snap "" { snap with action := .update, flowStep := 0, buttons := [] }
    else if jsIncludes intent "delete" || jsIncludes intent "remove" then
      handleDeleteFlow snap "" { snap with action := .delete, flowStep := 0, buttons := [] }
    else if jsIncludes intent "view" || jsIncludes intent "show" || jsIncludes intent "list" then
      handleViewFlow snap { snap with action := .view, flowStep := 0, buttons := [] }
    else
      { (pushMessage .assistant "I can add, update, delete, or show tasks. Which one do you need?" snap)
        with buttons := idleActions }
  | .add =>
    handleAddFlow fresh snap userInput snap
  | .update =>
    handleUpdateFlow snap userInput snap
  | .delete =>
    handleDeleteFlow snap userInput snap
  | .view =>
    handleViewFlow snap snap

/-- `handleSend` (page.tsx:512-518).  `value? = some v` is a quick-action
button tap with payload `v`; `value? = none` is a free-text submission of
the current input-box content `inputBox` (which is trimmed before use). -/
def handleSend (fresh : String) (snap : EngineState) (value? : Option String)
    (inputBox : String) : EngineState :=
  let messageText := value?.getD (jsTrim inputBox)
  if messageText = "" then snap
  else routeInput fresh (pushMessage .user messageText snap) messageText

/-- Several consecutive engine turns (the per-turn fresh id is reused; it
is only consumed when a turn saves a new task, at most once per scenario
below). -/
def runTurns (fresh : String) (s : EngineState) (inputs : List String) : EngineState :=
  inputs.foldl (fun acc i => routeInput fresh acc i) s

/-- An Idle session state, as `resetConversation` establishes it, over an
arbitrary message log and task store. -/
def mkIdle (msgs : List Message) (ts : List Task) : EngineState :=
  { messages := msgs
    tasks := ts
    action := .idle
    flowStep := 0
    pendingTask := defaultPending
    selectedTaskId := none
    pendingField := none
    buttons := idleActions }

/-! ### Startup rehydration and persistence (page.tsx:77-93) -/

/-- The JSON value tree, as far as the persisted payload needs: the
textual `JSON.stringify`/`JSON.parse` pair is the platform's and is
modelled as the identity on these trees. -/
inductive Json where
  | str : String → Json
  | null : Json
  | arr : List Json → Json
  | obj : List (String × Json) → Json

/-- The JSON object `JSON.stringify` produces for one task. -/
def taskToJson (t : Task) : Json :=
  .obj [("id", .str t.id), ("title", .str t.title), ("due", .str t.due),
        ("priority", .str (priorityLabel t.priority)),
        ("reminder", match t.reminder with | some r => .str r | none => .null)]

/-- The persisted payload: `JSON.stringify(tasks)` (page.tsx:92). -/
def storeToJson (ts : List Task) : Json :=
  .arr (ts.map taskToJson)

/-- The load effect's only structural check, `Array.isArray(parsed)`
(page.tsx:82): accept any array, element contents unexamined. -/
def parseStored : Json → Option (List Json)
  | .arr es => some es
  | _ => none

def priorityOfLabel (s : String) : Option Priority :=
  priorityOptions.find? (fun p => priorityLabel p = s)

/-- Partial inverse of `taskToJson`: reading one well-formed stored task
record back into a `Task`. -/
def jsonToTask? : Json → Option Task
  | .obj [("id", .str i), ("title", .str ti), ("due", .str d), ("priority", .str p), ("reminder", r)] =>
    match priorityOfLabel p, r with
    | some pr, .null => some ⟨i, ti, d, pr, none⟩
    | some pr, .str rem => some ⟨i, ti, d, pr, some rem⟩
    | _, _ => none
  | _ => none

/-- The load effect at task level: `setTasks(parsed)` when the stored
value parsed as an array, else the store keeps its current value
(page.tsx:79-88).  No per-element validation is performed. -/
def loadTasks (stored : Option (List Task)) (cur : List Task) : List Task :=
  match stored with
  | some l => l
  | none => cur

/-! ### Shared helper lemmas -/

theorem dropWhile_eq_self_of_none {p : Char → Bool} : ∀ {l : List Char},
    (∀ c ∈ l, p c = false) → l.dropWhile p = l
  | [], _ => rfl
  | c :: t, h => by simp [List.dropWhile, h c (by simp)]

theorem takeWhile_eq_self_of_all {p : Char → Bool} : ∀ {l : List Char},
    (∀ c ∈ l, p c = true) → l.takeWhile p = l
  | [], _ => rfl
  | c :: t, h => by
    simp only [List.takeWhile, h c (by simp), List.cons.injEq, true_and]
    exact takeWhile_eq_self_of_all (fun d hd => h d (List.mem_cons_of_mem c hd))

theorem map_if_id_of_no_match (sel : String) (p : PendingTask) : ∀ (ts : List Task),
    (∀ t ∈ ts, t.id ≠ sel) →
    ts.map (fun t => if t.id = sel then mergeTask t p else t) = ts
  | [], _ => rfl
  | t :: r, h => by
    simp only [List.map_cons, if_neg (h t (by simp)), List.cons.injEq, true_and]
    exact map_if_id_of_no_match sel p r (fun u hu => h u (by simp [hu]))

theorem filter_id_eq_self_of_no_match (sel : String) : ∀ (ts : List Task),
    (∀ t ∈ ts, t.id ≠ sel) →
    ts.filter (fun t => ¬ t.id = sel) = ts
  | [], _ => rfl
  | t :: r, h => by
    simp only [List.filter_cons]
    rw [if_pos (by simp [h t (by simp)])]
    simp only [List.cons.injEq, true_and]
    exact filter_id_eq_self_of_no_match sel r (fun u hu => h u (by simp [hu]))

/-! Evaluations of the JS string helpers at the concrete inputs the
scenarios use. -/

theorem inc_add_a_task : jsIncludes (jsToLower (jsTrim "add a task")) "add" = true := rfl
theorem inc_update_not_add : jsIncludes (jsToLower (jsTrim "update")) "add" = false := rfl
theorem inc_update_update : jsIncludes (jsToLower (jsTrim "update")) "update" = true := rfl
theorem jt_buy_milk : jsTrim "Buy milk" = "Buy milk" := rfl
theorem jt_tomorrow : jsTrim "tomorrow 9am" = "tomorrow 9am" := rfl
theorem fp_high : findPriority "High" = some .High := rfl
theorem fp_medium : findPriority "Medium" = some .Medium := rfl
theorem sw_no_y : jsStartsWith (jsToLower (jsTrim "no")) "y" = false := rfl
theorem sw_no_n : jsStartsWith (jsToLower (jsTrim "no")) "n" = true := rfl
theorem sw_yes_y : jsStartsWith (jsToLower (jsTrim "yes")) "y" = true := rfl
theorem pi_hash1 : parseIndex "#1" = some 0 := rfl
theorem fos_priority : fieldOfString (jsToLower (jsTrim "priority")) = some .priority := rfl

/-- A session state inside the Add flow, for stating intermediate
scenario states compactly. -/
def addState (msgs : List Message) (ts : List Task) (step : Nat)
    (p : PendingTask) (bs : List QuickAction) : EngineState :=
  { messages := msgs
    tasks := ts
    action := .add
    flowStep := step
    pendingTask := p
    selectedTaskId := none
    pendingField := none
    buttons := bs }

/-! ### C2: Scenario A, the full Add dialogue -/

/-- C2: starting from Idle with any task store, the inputs
"add a task", "Buy milk", "tomorrow 9am", "High", "no", "yes" extend the
store by exactly one task titled "Buy milk", due "tomorrow 9am",
priority High, reminder absent, and return the engine to Idle with the
four top-level quick-action buttons shown. -/
theorem scenarioA_add_flow (fresh : String) (msgs : List Message) (ts : List Task) :
    (runTurns fresh (mkIdle msgs ts)
        ["add a task", "Buy milk", "tomorrow 9am", "High", "no", "yes"]).tasks
      = ts ++ [⟨fresh, "Buy milk", "tomorrow 9am", .High, none⟩] ∧
    (runTurns fresh (mkIdle msgs ts)
        ["add a task", "Buy milk", "tomorrow 9am", "High", "no", "yes"]).action = .idle ∧
    (runTurns fresh (mkIdle msgs ts)
        ["add a task", "Buy milk", "tomorrow 9am", "High", "no", "yes"]).flowStep = 0 ∧
    (runTurns fresh (mkIdle msgs ts)
        ["add a task", "Buy milk", "tomorrow 9am", "High", "no", "yes"]).buttons = idleActions := by
  have e1 : routeInput fresh (mkIdle msgs ts) "add a task"
      = addState (msgs ++ [⟨.assistant, "Great! What is the task?"⟩]) ts 1 defaultPending [] := by
    simp only [routeInput, mkIdle, handleAddFlow, pushMessage, addState, inc_add_a_task, if_true]
  have e2 : ∀ m, routeInput fresh (addState m ts 1 defaultPending []) "Buy milk"
      = addState (m ++ [⟨.assistant, "Got it. When is it due? (e.g. \"24 Apr 5pm\")"⟩]) ts 2
          { defaultPending with title? := some "Buy milk" } [] := by
    intro m
    simp only [routeInput, addState, handleAddFlow, pushMessage, jt_buy_milk]
  have e3 : ∀ m p, routeInput fresh (addState m ts 2 p []) "tomorrow 9am"
      = addState (m ++ [⟨.assistant, "Any priority? High, Medium, or Low?"⟩]) ts 3
          { p with due? := some "tomorrow 9am" }
          (priorityOptions.map (fun q => ⟨priorityLabel q, priorityLabel q⟩)) := by
    intro m p
    simp only [routeInput, addState, handleAddFlow, pushMessage, jt_tomorrow]
  have e4 : ∀ m p bs, routeInput fresh (addState m ts 3 p bs) "High"
      = addState (m ++ [⟨.assistant, "Do you want to add a reminder?"⟩]) ts 4
          { p with priority? := some .High }
          [⟨"Yes, add reminder", "yes"⟩, ⟨"No reminder", "no"⟩] := by
    intro m p bs
    simp only [routeInput, addState, handleAddFlow, pushMessage, fp_high]
  have e5 : ∀ m p bs, routeInput fresh (addState m ts 4 p bs) "no"
      = addState (m ++ [⟨.assistant, "Here is what I captured. Save it? (yes/no)"⟩]) ts 6
          { p with reminder? := some none } saveButtons := by
    intro m p bs
    simp only [routeInput, addState, handleAddFlow, pushMessage, sw_no_y, sw_no_n,
      Bool.false_eq_true, if_false, if_true]
  have e6 : ∀ m bs, routeInput fresh
        (addState m ts 6 ⟨some "Buy milk", some "tomorrow 9am", some .High, some none⟩ bs) "yes"
      = showIdleOptions (pushMessage .assistant
          ("All set!\n" ++ taskSummary ⟨fresh, "Buy milk", "tomorrow 9am", .High, none⟩)
          (addState m (ts ++ [⟨fresh, "Buy milk", "tomorrow 9am", .High, none⟩]) 6
            ⟨some "Buy milk", some "tomorrow 9am", some .High, some none⟩ bs)) := by
    intro m bs
    simp only [routeInput, addState, handleAddFlow, sw_yes_y, if_true, Option.map_some',
      Option.getD_some, jt_buy_milk, jt_tomorrow]
  simp only [runTurns, List.foldl, e1, e2, e3, e4, e5, e6, defaultPending,
    showIdleOptions, resetConversation, pushMessage]
  exact ⟨rfl, rfl, rfl, rfl⟩

/-! ### C4: "no" at a final confirmation step is a no-op -/

/-- C4: at each final confirmation step (Add step 6, Update step 5,
Delete step 2), submitting "no" leaves the task store unchanged and
returns the engine to Idle with the top-level buttons. -/
theorem no_at_confirmation_noop (fresh : String) (s : EngineState)
    (h : (s.action = .add ∧ s.flowStep = 6) ∨ (s.action = .update ∧ s.flowStep = 5) ∨
         (s.action = .delete ∧ s.flowStep = 2)) :
    (routeInput fresh s "no").tasks = s.tasks ∧
    (routeInput fresh s "no").action = .idle ∧
    (routeInput fresh s "no").flowStep = 0 ∧
    (routeInput fresh s "no").buttons = idleActions := by
  rcases h with ⟨ha, hs⟩ | ⟨ha, hs⟩ | ⟨ha, hs⟩
  · simp only [routeInput, ha, hs, handleAddFlow, sw_no_y, Bool.false_eq_true, if_false,
      showIdleOptions, resetConversation, pushMessage]
    all_goals exact ⟨by trivial, by trivial, by trivial, by trivial⟩
  · rcases hsel : s.selectedTaskId with _ | sel
    · simp only [routeInput, ha, hs, handleUpdateFlow, hsel, resetConversation, pushMessage]
      all_goals exact ⟨by trivial, by trivial, by trivial, by trivial⟩
    · simp only [routeInput, ha, hs, handleUpdateFlow, hsel, sw_no_y, Bool.false_eq_true,
        if_false, showIdleOptions, resetConversation, pushMessage]
      all_goals exact ⟨by trivial, by trivial, by trivial, by trivial⟩
  · rcases hsel : s.selectedTaskId with _ | sel
    · simp only [routeInput, ha, hs, handleDeleteFlow, hsel, resetConversation, pushMessage]
      all_goals exact ⟨by trivial, by trivial, by trivial, by trivial⟩
    · simp only [routeInput, ha, hs, handleDeleteFlow, hsel, sw_no_y, Bool.false_eq_true,
        if_false, showIdleOptions, resetConversation, pushMessage]
      all_goals exact ⟨by trivial, by trivial, by trivial, by trivial⟩

/-- A concrete task used by witnesses and counterexamples. -/
def cTask : TaskScheduler.Task := ⟨"a", "T1", "D1", .Low, none⟩

def cDeleteConfirm : EngineState :=
  { mkIdle [] [cTask] with
    action := .delete
    flowStep := 2
    selectedTaskId := some "a" }

/-- Witness for `no_at_confirmation_noop` at a concrete Delete
confirmation state. -/
theorem no_at_confirmation_noop_witness :
    (routeInput "f" cDeleteConfirm "no").tasks = cDeleteConfirm.tasks ∧
    (routeInput "f" cDeleteConfirm "no").action = .idle ∧
    (routeInput "f" cDeleteConfirm "no").flowStep = 0 ∧
    (routeInput "f" cDeleteConfirm "no").buttons = idleActions :=
  no_at_confirmation_noop "f" cDeleteConfirm (Or.inr (Or.inr ⟨rfl, rfl⟩))

/-! ### C5: the Idle intent router -/

/-- C5: while Idle, the router substring-matches the lowered, trimmed
input against the keyword groups "add"; "update"; "delete"/"remove";
"view"/"show"/"list" in that precedence order (earlier groups win
without consulting later ones), on a match sets the intent, resets the
step, clears the buttons and runs the chosen flow's first step in the
same turn, and on no match emits a clarifying message and re-offers the
four top-level quick actions, leaving intent and task store unchanged. -/
theorem intent_router_spec (fresh : String) (s : EngineState) (input : String)
    (hidle : s.action = .idle) (hstep : s.flowStep = 0) :
    -- "add" anywhere in the lowered, trimmed input wins outright
    (jsIncludes (jsToLower (jsTrim input)) "add" = true →
      (routeInput fresh s input).action = .add ∧
      (routeInput fresh s input).flowStep = 1 ∧
      (routeInput fresh s input).buttons = [] ∧
      (routeInput fresh s input).tasks = s.tasks ∧
      (routeInput fresh s input).messages
        = s.messages ++ [⟨.assistant, "Great! What is the task?"⟩]) ∧
    -- "update" fires only when "add" does not, and runs Update step 0 in-turn
    (jsIncludes (jsToLower (jsTrim input)) "add" = false →
     jsIncludes (jsToLower (jsTrim input)) "update" = true → s.tasks ≠ [] →
      (routeInput fresh s input).action = .update ∧
      (routeInput fresh s input).flowStep = 1 ∧
      (routeInput fresh s input).buttons = [] ∧
      (routeInput fresh s input).tasks = s.tasks ∧
      (routeInput fresh s input).messages
        = s.messages ++ [⟨.assistant, "Which task do you want to update?\n" ++ taskListing s.tasks⟩]) ∧
    -- with an empty store, Update step 0 still ran this turn and bailed to Idle
    (jsIncludes (jsToLower (jsTrim input)) "add" = false →
     jsIncludes (jsToLower (jsTrim input)) "update" = true → s.tasks = [] →
      (routeInput fresh s input).action = .idle ∧
      (routeInput fresh s input).tasks = [] ∧
      (routeInput fresh s input).buttons = idleActions ∧
      (routeInput fresh s input).messages
        = s.messages ++ [⟨.assistant, "You have no tasks yet. Let’s add one."⟩]) ∧
    -- the delete group ("delete" or "remove"), below add/update
    (jsIncludes (jsToLower (jsTrim input)) "add" = false →
     jsIncludes (jsToLower (jsTrim input)) "update" = false →
     (jsIncludes (jsToLower (jsTrim input)) "delete" = true ∨
      jsIncludes (jsToLower (jsTrim input)) "remove" = true) → s.tasks ≠ [] →
      (routeInput fresh s input).action = .delete ∧
      (routeInput fresh s input).flowStep = 1 ∧
      (routeInput fresh s input).buttons = [] ∧
      (routeInput fresh s input).tasks = s.tasks ∧
      (routeInput fresh s input).messages
        = s.messages ++ [⟨.assistant, "Got it. Which task should I delete?\n" ++ taskListing s.tasks⟩]) ∧
    -- the view group ("view", "show" or "list"), lowest precedence; single-shot
    (jsIncludes (jsToLower (jsTrim input)) "add" = false →
     jsIncludes (jsToLower (jsTrim input)) "update" = false →
     jsIncludes (jsToLower (jsTrim input)) "delete" = false →
     jsIncludes (jsToLower (jsTrim input)) "remove" = false →
     (jsIncludes (jsToLower (jsTrim input)) "view" = true ∨
      jsIncludes (jsToLower (jsTrim input)) "show" = true ∨
      jsIncludes (jsToLower (jsTrim input)) "list" = true) → s.tasks ≠ [] →
      (routeInput fresh s input).action = .idle ∧
      (routeInput fresh s input).tasks = s.tasks ∧
      (routeInput fresh s input).buttons = idleActions ∧
      (routeInput fresh s input).messages
        = s.messages ++ [⟨.assistant, "Here is what is on your list:\n" ++ viewListing s.tasks⟩,
                         ⟨.assistant, "Anything else I can help with? Add, update, delete, or view tasks."⟩]) ∧
    -- no keyword matches: clarify, re-offer the four quick actions, change nothing else
    (jsIncludes (jsToLower (jsTrim input)) "add" = false →
     jsIncludes (jsToLower (jsTrim input)) "update" = false →
     jsIncludes (jsToLower (jsTrim input)) "delete" = false →
     jsIncludes (jsToLower (jsTrim input)) "remove" = false →
     jsIncludes (jsToLower (jsTrim input)) "view" = false →
     jsIncludes (jsToLower (jsTrim input)) "show" = false →
     jsIncludes (jsToLower (jsTrim input)) "list" = false →
      routeInput fresh s input
        = { (pushMessage .assistant "I can add, update, delete, or show tasks. Which one do you need?" s)
            with buttons := idleActions }) := by
  refine ⟨?_, ?_, ?_, ?_, ?_, ?_⟩
  · intro h1
    simp only [routeInput, hidle, hstep, h1, if_true, handleAddFlow, pushMessage]
    exact ⟨by trivial, by trivial, by trivial, by trivial, by trivial⟩
  · intro h1 h2 hne
    simp only [routeInput, hidle, hstep, h1, h2, Bool.false_eq_true, if_false, if_true,
      handleUpdateFlow, pushMessage]
    rw [if_neg (by simpa [List.length_eq_zero] using hne)]
    exact ⟨by trivial, by trivial, by trivial, by trivial, by trivial⟩
  · intro h1 h2 hemp
    simp only [routeInput, hidle, hstep, h1, h2, Bool.false_eq_true, if_false, if_true,
      handleUpdateFlow, pushMessage, hemp, List.length_nil, resetConversation]
    exact ⟨by trivial, by trivial, by trivial, by trivial⟩
  · intro h1 h2 h3 hne
    have hd : (jsIncludes (jsToLower (jsTrim input)) "delete"
        || jsIncludes (jsToLower (jsTrim input)) "remove") = true := by
      rcases h3 with h | h <;> simp [h]
    simp only [routeInput, hidle, hstep, h1, h2, hd, Bool.false_eq_true, if_false, if_true,
      handleDeleteFlow, pushMessage]
    rw [if_neg (by simpa [List.length_eq_zero] using hne)]
    exact ⟨by trivial, by trivial, by trivial, by trivial, by trivial⟩
  · intro h1 h2 h3 h4 h5 hne
    have hv : ((jsIncludes (jsToLower (jsTrim input)) "view"
        || jsIncludes (jsToLower (jsTrim input)) "show")
        || jsIncludes (jsToLower (jsTrim input)) "list") = true := by
      rcases h5 with h | h | h <;> simp [h]
    simp only [routeInput, hidle, hstep, h1, h2, h3, h4, hv, Bool.or_self, Bool.false_eq_true,
      if_false, if_true, handleViewFlow, pushMessage, showIdleOptions, resetConversation]
    rw [if_neg (by simpa [List.length_eq_zero] using hne)]
    exact ⟨by trivial, by trivial, by trivial, by simp⟩
  · intro h1 h2 h3 h4 h5 h6 h7
    simp only [routeInput, hidle, h1, h2, h3, h4, h5, h6, h7, Bool.or_self, Bool.false_eq_true,
      if_false]

/-- Witness for `intent_router_spec`: "add a task" from Idle. -/
theorem intent_router_spec_witness :
    (routeInput "f" (mkIdle [] [cTask]) "add a task").action = .add ∧
    (routeInput "f" (mkIdle [] [cTask]) "add a task").flowStep = 1 ∧
    (routeInput "f" (mkIdle [] [cTask]) "add a task").buttons = [] ∧
    (routeInput "f" (mkIdle [] [cTask]) "add a task").tasks = [cTask] ∧
    (routeInput "f" (mkIdle [] [cTask]) "add a task").messages
      = [] ++ [⟨.assistant, "Great! What is the task?"⟩] :=
  (intent_router_spec "f" (mkIdle [] [cTask]) "add a task" rfl rfl).1 rfl


/-- `parseIndex` on an input whose trimmed form is a nonempty decimal
digit string, optionally preceded by `#`: it returns the denoted number
minus one. -/
theorem parseIndex_digits (input : String) (ds : List Char) (hne : ds ≠ [])
    (hdig : ∀ c ∈ ds, c.isDigit = true)
    (hform : jsTrim input = ⟨ds⟩ ∨ jsTrim input = ⟨'#' :: ds⟩) :
    parseIndex input = some ((digitsToNat ds : Int) - 1) := by
  have hemp : ds.isEmpty = false := by cases ds with
    | nil => exact absurd rfl hne
    | cons c t => rfl
  have htake : ds.takeWhile Char.isDigit = ds := takeWhile_eq_self_of_all hdig
  unfold parseIndex
  rcases hform with h | h <;> rw [h]
  · have hhead : ¬ (String.mk ds).data.head? = some '#' := by
      cases ds with
      | nil => simp
      | cons c t =>
        intro hc
        have hcd : c.isDigit = true := hdig c (by simp)
        have : c = '#' := by simpa using hc
        rw [this] at hcd
        exact absurd hcd (by decide)
    simp only [if_neg hhead]
    show (if (ds.takeWhile Char.isDigit).isEmpty = true then none
      else some ((digitsToNat (ds.takeWhile Char.isDigit) : Int) - 1)) = _
    rw [htake, hemp]
    simp
  · show (if ((('#' :: ds).tail).takeWhile Char.isDigit).isEmpty = true then none
      else some ((digitsToNat ((('#' :: ds).tail).takeWhile Char.isDigit) : Int) - 1)) = _
    rw [List.tail_cons, htake, hemp]
    simp

/-! ### C1: index selection in the Update and Delete flows -/

/-- C1 (amended): at the Update/Delete index-selection step, an input
whose trimmed form is `#k` or `k` (a decimal numeral) with 1 ≤ k ≤ N
selects the task at position k−1 and advances to the next step; an input
that yields no parsed index, or an out-of-range one, only re-prompts,
leaving selection, step, store and intent unchanged.  (The original
claim said *every* other input re-prompts, but `parseIndex` accepts any
input with a numeric prefix, e.g. "1x" — see the counterexample.) -/
theorem index_selection (fresh : String) (s : EngineState) (input : String) :
    (s.action = .update → s.flowStep = 1 →
      (∀ (ds : List Char) (k : Nat),
        (jsTrim input = ⟨ds⟩ ∨ jsTrim input = ⟨'#' :: ds⟩) → ds ≠ [] →
        (∀ c ∈ ds, c.isDigit = true) → digitsToNat ds = k →
        1 ≤ k → k ≤ s.tasks.length →
        (routeInput fresh s input).selectedTaskId = (s.tasks.get? (k - 1)).map Task.id ∧
        (routeInput fresh s input).flowStep = 2) ∧
      ((∀ i, parseIndex input = some i → i < 0 ∨ (s.tasks.length : Int) ≤ i) →
        routeInput fresh s input
          = pushMessage .assistant "Please pick a valid task number." s)) ∧
    (s.action = .delete → s.flowStep = 1 →
      (∀ (ds : List Char) (k : Nat),
        (jsTrim input = ⟨ds⟩ ∨ jsTrim input = ⟨'#' :: ds⟩) → ds ≠ [] →
        (∀ c ∈ ds, c.isDigit = true) → digitsToNat ds = k →
        1 ≤ k → k ≤ s.tasks.length →
        (routeInput fresh s input).selectedTaskId = (s.tasks.get? (k - 1)).map Task.id ∧
        (routeInput fresh s input).flowStep = 2) ∧
      ((∀ i, parseIndex input = some i → i < 0 ∨ (s.tasks.length : Int) ≤ i) →
        routeInput fresh s input
          = pushMessage .assistant "Please choose a valid task number." s)) := by
  constructor
  · intro ha hs
    constructor
    · intro ds k hform hne hdig hk hk1 hk2
      have hpi := parseIndex_digits input ds hne hdig hform
      rw [hk] at hpi
      have hlt : k - 1 < s.tasks.length := by omega
      have hget := List.get?_eq_get hlt
      have htn : ((k : Int) - 1).toNat = k - 1 := by omega
      simp only [routeInput, ha, hs, handleUpdateFlow, hpi]
      rw [if_neg (by omega), if_neg (by omega), htn, hget]
      exact ⟨by simp [pushMessage], rfl⟩
    · intro hbad
      rcases hpi : parseIndex input with _ | i
      · simp only [routeInput, ha, hs, handleUpdateFlow, hpi]
      · rcases hbad i hpi with hneg | hbig
        · simp only [routeInput, ha, hs, handleUpdateFlow, hpi, if_pos hneg]
        · simp only [routeInput, ha, hs, handleUpdateFlow, hpi]
          rw [if_neg (by omega), if_pos hbig]
  · intro ha hs
    constructor
    · intro ds k hform hne hdig hk hk1 hk2
      have hpi := parseIndex_digits input ds hne hdig hform
      rw [hk] at hpi
      have hlt : k - 1 < s.tasks.length := by omega
      have hget := List.get?_eq_get hlt
      have htn : ((k : Int) - 1).toNat = k - 1 := by omega
      simp only [routeInput, ha, hs, handleDeleteFlow, hpi]
      rw [if_neg (by omega), if_neg (by omega), htn, hget]
      exact ⟨by simp [pushMessage], rfl⟩
    · intro hbad
      rcases hpi : parseIndex input with _ | i
      · simp only [routeInput, ha, hs, handleDeleteFlow, hpi]
      · rcases hbad i hpi with hneg | hbig
        · simp only [routeInput, ha, hs, handleDeleteFlow, hpi, if_pos hneg]
        · simp only [routeInput, ha, hs, handleDeleteFlow, hpi]
          rw [if_neg (by omega), if_pos hbig]

/-- A concrete Update-flow state at the index-selection step, with one
stored task. -/
def cUpdateSelect : EngineState :=
  { mkIdle [] [cTask] with
    action := .update
    flowStep := 1 }

/-- C1 counterexample: "1x" is neither of the form `#k` nor `k` (it is
non-numeric as a whole), so the claim requires a re-prompt with
selection and step unchanged; the code instead parses the numeric
prefix, selects task #1 and advances to the field-selection step. -/
theorem index_selection_counterexample :
    (routeInput "f" cUpdateSelect "1x").selectedTaskId = some "a" ∧
    (routeInput "f" cUpdateSelect "1x").flowStep = 2 := by
  constructor <;> decide

/-- Witness for `index_selection`: "#1" against a one-task store. -/
theorem index_selection_witness :
    (routeInput "f" cUpdateSelect "#1").selectedTaskId
      = (cUpdateSelect.tasks.get? (1 - 1)).map Task.id ∧
    (routeInput "f" cUpdateSelect "#1").flowStep = 2 :=
  ((index_selection "f" cUpdateSelect "#1").1 rfl rfl).1 ['1'] 1
    (Or.inr rfl) (by decide) (by decide) rfl (by decide) (by decide)


/-! ### C3: recovery from a lost selected-task reference -/

/-- C3 (amended): at Update steps 3 and 4 a missing reference (null, or
an id no longer in the store) aborts the flow to Idle with an apology
and no store mutation.  At the final confirmation steps (Update 5,
Delete 2) only a *null* reference aborts with an apology; a non-null
reference to a task no longer present proceeds through the confirmation
branch, mutates nothing (the id matches no task) and returns to Idle
with the normal success/cancel message, not an apology. -/
theorem dangling_selection_recovery (fresh : String) (s : EngineState) (input : String) :
    (s.action = .update → (s.flowStep = 3 ∨ s.flowStep = 4) → s.selectedTaskId = none →
      routeInput fresh s input
        = resetConversation (pushMessage .assistant "Let’s start over." s)) ∧
    (s.action = .update → s.flowStep = 3 → ∀ sel, s.selectedTaskId = some sel →
      s.tasks.find? (fun t => t.id = sel) = none →
      routeInput fresh s input
        = resetConversation (pushMessage .assistant "I could not find that task. Let’s try again." s)) ∧
    (s.action = .update → s.flowStep = 4 → ∀ sel, s.selectedTaskId = some sel →
      s.tasks.find? (fun t => t.id = sel) = none →
      routeInput fresh s input
        = resetConversation (pushMessage .assistant "Task not found, sorry." s)) ∧
    (s.action = .update → s.flowStep = 5 → s.selectedTaskId = none →
      routeInput fresh s input
        = resetConversation (pushMessage .assistant "Looks like that task vanished." s)) ∧
    (s.action = .update → s.flowStep = 5 → ∀ sel, s.selectedTaskId = some sel →
      (∀ t ∈ s.tasks, t.id ≠ sel) →
      (routeInput fresh s input).tasks = s.tasks ∧ (routeInput fresh s input).action = .idle) ∧
    (s.action = .delete → s.flowStep = 2 → s.selectedTaskId = none →
      routeInput fresh s input
        = resetConversation (pushMessage .assistant "Task already gone." s)) ∧
    (s.action = .delete → s.flowStep = 2 → ∀ sel, s.selectedTaskId = some sel →
      (∀ t ∈ s.tasks, t.id ≠ sel) →
      (routeInput fresh s input).tasks = s.tasks ∧ (routeInput fresh s input).action = .idle) := by
  refine ⟨?_, ?_, ?_, ?_, ?_, ?_, ?_⟩
  · intro ha hstep hsel
    rcases hstep with hs | hs <;>
      simp only [routeInput, ha, hs, handleUpdateFlow, hsel]
  · intro ha hs sel hsel hfind
    simp only [routeInput, ha, hs, handleUpdateFlow, hsel, hfind]
  · intro ha hs sel hsel hfind
    simp only [routeInput, ha, hs, handleUpdateFlow, hsel, hfind]
  · intro ha hs hsel
    simp only [routeInput, ha, hs, handleUpdateFlow, hsel]
  · intro ha hs sel hsel hmiss
    cases hy : jsStartsWith (jsToLower (jsTrim input)) "y"
    · simp only [routeInput, ha, hs, handleUpdateFlow, hsel, hy, Bool.false_eq_true, if_false,
        showIdleOptions, resetConversation, pushMessage]
      exact ⟨by trivial, by trivial⟩
    · simp only [routeInput, ha, hs, handleUpdateFlow, hsel, hy, if_true,
        showIdleOptions, resetConversation, pushMessage]
      exact ⟨by simpa using map_if_id_of_no_match sel s.pendingTask s.tasks hmiss, by trivial⟩
  · intro ha hs hsel
    simp only [routeInput, ha, hs, handleDeleteFlow, hsel]
  · intro ha hs sel hsel hmiss
    cases hy : jsStartsWith (jsToLower (jsTrim input)) "y"
    · simp only [routeInput, ha, hs, handleDeleteFlow, hsel, hy, Bool.false_eq_true, if_false,
        showIdleOptions, resetConversation, pushMessage]
      exact ⟨by trivial, by trivial⟩
    · simp only [routeInput, ha, hs, handleDeleteFlow, hsel, hy, if_true,
        showIdleOptions, resetConversation, pushMessage]
      exact ⟨by simpa using filter_id_eq_self_of_no_match sel s.tasks hmiss, by trivial⟩

/-- An Update-flow confirmation state whose selected task id refers to
no stored task. -/
def cVanished : EngineState :=
  { mkIdle [] [] with
    action := .update
    flowStep := 5
    selectedTaskId := some "z" }

/-- C3 counterexample: at Update step 5 with a dangling (non-null but
deleted) selection and input "yes", the claim requires an abort with an
apology message; the code instead emits the success message
"Updated! Anything else?". -/
theorem dangling_selection_counterexample :
    (routeInput "f" cVanished "yes").messages
      = [⟨.assistant, "Updated! Anything else?"⟩,
         ⟨.assistant, "Anything else I can help with? Add, update, delete, or view tasks."⟩] ∧
    (routeInput "f" cVanished "yes").action = .idle := by
  constructor <;> decide

/-- An Update-flow step-3 state with no selected task. -/
def cNoSel : EngineState :=
  { mkIdle [] [] with
    action := .update
    flowStep := 3 }

/-- Witness for `dangling_selection_recovery`: a null selection at
Update step 3. -/
theorem dangling_selection_witness :
    routeInput "f" cNoSel "x"
      = resetConversation (pushMessage .assistant "Let’s start over." cNoSel) :=
  (dangling_selection_recovery "f" cNoSel "x").1 rfl (Or.inl rfl) rfl


/-! ### C6: Scenario D, updating one task's priority -/

/-- A session state inside the Update flow. -/
def updState (msgs : List Message) (ts : List TaskScheduler.Task) (step : Nat) (p : PendingTask)
    (sel : Option String) (pf : Option Field) (bs : List QuickAction) : EngineState :=
  { messages := msgs
    tasks := ts
    action := .update
    flowStep := step
    pendingTask := p
    selectedTaskId := sel
    pendingField := pf
    buttons := bs }

/-- C6: starting from a store headed by a priority-Low task (with any
further tasks carrying distinct ids), the Update dialogue "update",
"#1", "priority", "Medium", "yes" sets that task's priority to Medium
leaving its id, title, due and reminder untouched, leaves every other
task unchanged, and returns the engine to Idle. -/
theorem scenarioD_update_priority (fresh : String) (msgs : List Message)
    (t : TaskScheduler.Task) (rest : List TaskScheduler.Task)
    (hLow : t.priority = .Low) (hid : ∀ u ∈ rest, u.id ≠ t.id) :
    (runTurns fresh (mkIdle msgs (t :: rest)) ["update", "#1", "priority", "Medium", "yes"]).tasks
      = { t with priority := .Medium } :: rest ∧
    (runTurns fresh (mkIdle msgs (t :: rest)) ["update", "#1", "priority", "Medium", "yes"]).action
      = .idle ∧
    (runTurns fresh (mkIdle msgs (t :: rest)) ["update", "#1", "priority", "Medium", "yes"]).flowStep
      = 0 ∧
    (runTurns fresh (mkIdle msgs (t :: rest)) ["update", "#1", "priority", "Medium", "yes"]).buttons
      = idleActions := by
  have e1 : routeInput fresh (mkIdle msgs (t :: rest)) "update"
      = updState (msgs ++ [⟨.assistant, "Which task do you want to update?\n" ++ taskListing (t :: rest)⟩])
          (t :: rest) 1 defaultPending none none [] := by
    simp only [routeInput, mkIdle, inc_update_not_add, inc_update_update, Bool.false_eq_true,
      if_false, if_true, handleUpdateFlow, pushMessage, updState]
    rw [if_neg (by simp)]
  have e2 : ∀ m, routeInput fresh (updState m (t :: rest) 1 defaultPending none none []) "#1"
      = updState (m ++ [⟨.assistant, "What do you want to change?"⟩]) (t :: rest) 2 defaultPending
          (some t.id) none
          [⟨"Task name", "title"⟩, ⟨"Due date & time", "due"⟩,
           ⟨"Priority", "priority"⟩, ⟨"Reminder", "reminder"⟩] := by
    intro m
    simp only [routeInput, updState, handleUpdateFlow, pi_hash1, pushMessage]
    rw [if_neg (by omega), if_neg (by simp only [List.length_cons]; omega)]
    rfl
  have e3 : ∀ m sel, routeInput fresh
        (updState m (t :: rest) 2 defaultPending sel none
          [⟨"Task name", "title"⟩, ⟨"Due date & time", "due"⟩,
           ⟨"Priority", "priority"⟩, ⟨"Reminder", "reminder"⟩]) "priority"
      = updState (m ++ [⟨.assistant, "New priority? (High/Medium/Low)"⟩]) (t :: rest) 3
          defaultPending sel (some .priority)
          (priorityOptions.map (fun q => ⟨priorityLabel q, priorityLabel q⟩)) := by
    intro m sel
    simp only [routeInput, updState, handleUpdateFlow, fos_priority, pushMessage,
      reduceCtorEq, if_true, eq_self_iff_true]
  have e4 : ∀ m bs, routeInput fresh
        (updState m (t :: rest) 3 defaultPending (some t.id) (some .priority) bs) "Medium"
      = updState (m ++ [⟨.assistant,
            "Here is the updated version:\n"
              ++ taskSummary (mergeTask t ⟨none, none, some .Medium, none⟩)
              ++ "\nSave it? (yes/no)"⟩])
          (t :: rest) 5 ⟨none, none, some .Medium, none⟩ (some t.id) (some .priority)
          saveButtons := by
    intro m bs
    simp only [routeInput, updState, handleUpdateFlow, fp_medium, pushMessage, updatePreview,
      eq_self_iff_true, if_true]
    rw [List.find?_cons_of_pos _ (by simp)]
    rfl
  have e5 : ∀ m bs, routeInput fresh
        (updState m (t :: rest) 5 ⟨none, none, some .Medium, none⟩ (some t.id) (some .priority) bs)
        "yes"
      = showIdleOptions (pushMessage .assistant "Updated! Anything else?"
          (updState m ({ t with priority := .Medium } :: rest) 5
            ⟨none, none, some .Medium, none⟩ (some t.id) (some .priority) bs)) := by
    intro m bs
    simp only [routeInput, updState, handleUpdateFlow, sw_yes_y, if_true, List.map_cons,
      eq_self_iff_true]
    rw [map_if_id_of_no_match t.id ⟨none, none, some .Medium, none⟩ rest hid]
    rfl
  simp only [runTurns, List.foldl, e1, e2, e3, e4, e5, showIdleOptions, resetConversation,
    pushMessage]
  exact ⟨by trivial, by trivial, by trivial, by trivial⟩

/-- A second concrete task with a distinct id. -/
def cTask2 : TaskScheduler.Task := ⟨"b", "T2", "D2", .High, some "r"⟩

/-- Witness for `scenarioD_update_priority` on a concrete two-task
store. -/
theorem scenarioD_update_priority_witness :
    (runTurns "f" (mkIdle [] [cTask, cTask2]) ["update", "#1", "priority", "Medium", "yes"]).tasks
      = { cTask with priority := .Medium } :: [cTask2] ∧
    (runTurns "f" (mkIdle [] [cTask, cTask2]) ["update", "#1", "priority", "Medium", "yes"]).action
      = .idle ∧
    (runTurns "f" (mkIdle [] [cTask, cTask2]) ["update", "#1", "priority", "Medium", "yes"]).flowStep
      = 0 ∧
    (runTurns "f" (mkIdle [] [cTask, cTask2]) ["update", "#1", "priority", "Medium", "yes"]).buttons
      = idleActions :=
  scenarioD_update_priority "f" [] cTask [cTask2] rfl (by decide)


/-! ### C7: uniqueness of stored task ids -/

/-- The Add flow either leaves the store alone or appends one task whose
id is the freshly generated one. -/
theorem handleAddFlow_tasks (fresh : String) (snap : EngineState) (input : String)
    (acc : EngineState) :
    (handleAddFlow fresh snap input acc).tasks = acc.tasks ∨
    ∃ task : TaskScheduler.Task, task.id = fresh ∧
      (handleAddFlow fresh snap input acc).tasks = snap.tasks ++ [task] := by
  rcases hstep : snap.flowStep with _ | _ | _ | _ | _ | _ | _ | n <;>
    simp only [handleAddFlow, hstep] <;>
    try exact Or.inl (by trivial)
  · cases hfp : findPriority input <;> dsimp only <;> exact Or.inl (by trivial)
  · split_ifs <;> exact Or.inl (by trivial)
  · split_ifs
    · exact Or.inr ⟨⟨fresh, (snap.pendingTask.title?.map jsTrim).getD "Untitled task",
        (snap.pendingTask.due?.map jsTrim).getD "No due date",
        snap.pendingTask.priority?.getD .Medium,
        snap.pendingTask.reminder?.getD none⟩, rfl, by trivial⟩
    · exact Or.inl (by trivial)

/-- The Update flow either leaves the store alone or maps an
id-preserving merge over it. -/
theorem handleUpdateFlow_tasks (snap : EngineState) (input : String) (acc : EngineState) :
    (handleUpdateFlow snap input acc).tasks = acc.tasks ∨
    ∃ sel, (handleUpdateFlow snap input acc).tasks
      = acc.tasks.map (fun t => if t.id = sel then mergeTask t snap.pendingTask else t) := by
  rcases hstep : snap.flowStep with _ | _ | _ | _ | _ | _ | n <;>
    simp only [handleUpdateFlow, hstep] <;>
    try exact Or.inl (by trivial)
  · split_ifs <;> exact Or.inl (by trivial)
  · cases hpi : parseIndex input with
    | none => exact Or.inl (by trivial)
    | some i =>
      dsimp only
      split_ifs
      · exact Or.inl (by trivial)
      · exact Or.inl (by trivial)
      · cases hg : snap.tasks.get? i.toNat <;> dsimp only <;> exact Or.inl (by trivial)
  · cases hf : fieldOfString (jsToLower (jsTrim input)) with
    | none => exact Or.inl (by trivial)
    | some f =>
      dsimp only
      split_ifs <;> exact Or.inl (by trivial)
  · cases hsel : snap.selectedTaskId with
    | none => exact Or.inl (by trivial)
    | some sel =>
      dsimp only
      cases hfind : snap.tasks.find? (fun t => t.id = sel) with
      | none => exact Or.inl (by trivial)
      | some cur =>
        dsimp only
        split_ifs <;>
          first
            | (cases hfp : findPriority input <;> dsimp only [updatePreview] <;>
                exact Or.inl (by trivial))
            | (dsimp only [updatePreview]; exact Or.inl (by trivial))
  · cases hsel : snap.selectedTaskId with
    | none => exact Or.inl (by trivial)
    | some sel =>
      dsimp only
      cases hfind : snap.tasks.find? (fun t => t.id = sel) with
      | none => exact Or.inl (by trivial)
      | some cur => dsimp only [updatePreview]; exact Or.inl (by trivial)
  · cases hsel : snap.selectedTaskId with
    | none => exact Or.inl (by trivial)
    | some sel =>
      dsimp only
      split_ifs
      · exact Or.inr ⟨sel, by trivial⟩
      · exact Or.inl (by trivial)

/-- The Delete flow either leaves the store alone or filters it. -/
theorem handleDeleteFlow_tasks (snap : EngineState) (input : String) (acc : EngineState) :
    (handleDeleteFlow snap input acc).tasks = acc.tasks ∨
    ∃ sel, (handleDeleteFlow snap input acc).tasks
      = acc.tasks.filter (fun t => ¬ t.id = sel) := by
  rcases hstep : snap.flowStep with _ | _ | _ | n <;>
    simp only [handleDeleteFlow, hstep] <;>
    try exact Or.inl (by trivial)
  · split_ifs <;> exact Or.inl (by trivial)
  · cases hpi : parseIndex input with
    | none => exact Or.inl (by trivial)
    | some i =>
      dsimp only
      split_ifs
      · exact Or.inl (by trivial)
      · exact Or.inl (by trivial)
      · cases hg : snap.tasks.get? i.toNat <;> dsimp only <;> exact Or.inl (by trivial)
  · cases hsel : snap.selectedTaskId with
    | none => exact Or.inl (by trivial)
    | some sel =>
      dsimp only
      split_ifs
      · exact Or.inr ⟨sel, by trivial⟩
      · exact Or.inl (by trivial)

/-- The View flow never touches the store. -/
theorem handleViewFlow_tasks (snap : EngineState) (acc : EngineState) :
    (handleViewFlow snap acc).tasks = acc.tasks := by
  unfold handleViewFlow
  split_ifs <;> rfl

/-- Merging a draft into matching tasks never changes any id. -/
theorem map_id_of_merge_map (sel : String) (p : PendingTask) : ∀ (ts : List TaskScheduler.Task),
    ((ts.map (fun t => if t.id = sel then mergeTask t p else t)).map Task.id) = ts.map Task.id
  | [] => rfl
  | t :: r => by
    by_cases h : t.id = sel <;>
      simp only [List.map_cons, if_pos, if_neg, h, mergeTask, List.cons.injEq] <;>
      exact ⟨by trivial, map_id_of_merge_map sel p r⟩

/-- Every engine turn changes the store in one of four shapes: not at
all, appending a fresh-id task, an id-preserving map, or a filter. -/
theorem routeInput_tasks (fresh : String) (s : EngineState) (input : String) :
    (routeInput fresh s input).tasks = s.tasks ∨
    (∃ task : TaskScheduler.Task, task.id = fresh ∧
      (routeInput fresh s input).tasks = s.tasks ++ [task]) ∨
    (∃ sel p, (routeInput fresh s input).tasks
      = s.tasks.map (fun t => if t.id = sel then mergeTask t p else t)) ∨
    (∃ sel, (routeInput fresh s input).tasks = s.tasks.filter (fun t => ¬ t.id = sel)) := by
  rcases ha : s.action <;> simp only [routeInput, ha]
  · -- idle: the router may seed any of the four flows
    split_ifs
    · rcases handleAddFlow_tasks fresh s "" { s with action := .add, flowStep := 0, buttons := [] }
        with h | ⟨task, hid, h⟩
      · exact Or.inl h
      · exact Or.inr (Or.inl ⟨task, hid, h⟩)
    · rcases handleUpdateFlow_tasks s "" { s with action := .update, flowStep := 0, buttons := [] }
        with h | ⟨sel, h⟩
      · exact Or.inl h
      · exact Or.inr (Or.inr (Or.inl ⟨sel, s.pendingTask, h⟩))
    · rcases handleDeleteFlow_tasks s "" { s with action := .delete, flowStep := 0, buttons := [] }
        with h | ⟨sel, h⟩
      · exact Or.inl h
      · exact Or.inr (Or.inr (Or.inr ⟨sel, h⟩))
    · exact Or.inl (handleViewFlow_tasks s _)
    · exact Or.inl (by trivial)
  · rcases handleAddFlow_tasks fresh s input s with h | ⟨task, hid, h⟩
    · exact Or.inl h
    · exact Or.inr (Or.inl ⟨task, hid, h⟩)
  · rcases handleUpdateFlow_tasks s input s with h | ⟨sel, h⟩
    · exact Or.inl h
    · exact Or.inr (Or.inr (Or.inl ⟨sel, s.pendingTask, h⟩))
  · rcases handleDeleteFlow_tasks s input s with h | ⟨sel, h⟩
    · exact Or.inl h
    · exact Or.inr (Or.inr (Or.inr ⟨sel, h⟩))
  · exact Or.inl (handleViewFlow_tasks s s)

/-- C7 (amended): every engine turn preserves distinctness of task ids,
given that the generated id is fresh; the startup rehydration installs
the persisted list as-is (the load path checks only that the parsed
value is an array), so ids are distinct after rehydration only when the
persisted list already had distinct ids.  Priorities are a three-valued
enumeration throughout the engine by construction.  -/
theorem unique_ids_preserved (fresh : String) (s : EngineState) (input : String)
    (hnd : (s.tasks.map Task.id).Nodup) (hfresh : fresh ∉ s.tasks.map Task.id) :
    ((routeInput fresh s input).tasks.map Task.id).Nodup ∧
    (∀ (stored : Option (List TaskScheduler.Task)) (cur : List TaskScheduler.Task),
      (cur.map Task.id).Nodup → (∀ l, stored = some l → (l.map Task.id).Nodup) →
      ((loadTasks stored cur).map Task.id).Nodup) := by
  constructor
  · rcases routeInput_tasks fresh s input with h | ⟨task, hid, h⟩ | ⟨sel, p, h⟩ | ⟨sel, h⟩
    · rw [h]; exact hnd
    · rw [h, List.map_append]
      simp only [List.map_cons, List.map_nil]
      rw [List.nodup_append]
      exact ⟨hnd, List.nodup_singleton _, by
        intro a haa hab
        simp only [List.mem_singleton] at hab
        rw [hab, hid] at haa
        exact hfresh haa⟩
    · rw [h, map_id_of_merge_map]; exact hnd
    · rw [h]
      exact hnd.sublist (List.Sublist.map _ (List.filter_sublist _))
  · intro stored cur hcur hst
    cases stored with
    | none => exact hcur
    | some l => exact hst l rfl

/-- C7 counterexample: rehydrating a persisted array holding two tasks
with the same id yields a store violating the unique-id invariant — the
load effect performs no per-element validation. -/
theorem unique_ids_counterexample :
    ¬ ((loadTasks (some [⟨"a", "T1", "D1", .Low, none⟩, ⟨"a", "T2", "D2", .High, none⟩]) []).map
        Task.id).Nodup := by
  decide

/-- Witness for `unique_ids_preserved` at a concrete store and fresh id. -/
theorem unique_ids_preserved_witness :
    ((routeInput "zz" (mkIdle [] [cTask]) "hello").tasks.map Task.id).Nodup ∧
    (∀ (stored : Option (List TaskScheduler.Task)) (cur : List TaskScheduler.Task),
      (cur.map Task.id).Nodup → (∀ l, stored = some l → (l.map Task.id).Nodup) →
      ((loadTasks stored cur).map Task.id).Nodup) :=
  unique_ids_preserved "zz" (mkIdle [] [cTask]) "hello" (by decide) (by decide)


/-! ### C8: placeholder defaults at the Add flow's save step -/

/-- C8: when the Add flow's save step receives a confirmation starting
with 'y', the materialized task's title and due fields get the
placeholders "Untitled task" / "No due date" exactly when the
corresponding draft field is absent, and otherwise equal the (trimmed)
draft value — the flow stores drafts already trimmed, so they equal the
values entered earlier. -/
theorem add_save_defaults (fresh : String) (s : EngineState) (input : String)
    (hact : s.action = .add) (hstep : s.flowStep = 6)
    (hy : jsStartsWith (jsToLower (jsTrim input)) "y" = true) :
    ∃ task : TaskScheduler.Task,
      (routeInput fresh s input).tasks = s.tasks ++ [task] ∧
      (s.pendingTask.title? = none → task.title = "Untitled task") ∧
      (∀ v, s.pendingTask.title? = some v → task.title = jsTrim v) ∧
      (∀ v, s.pendingTask.title? = some v → jsTrim v = v → task.title = v) ∧
      (s.pendingTask.due? = none → task.due = "No due date") ∧
      (∀ v, s.pendingTask.due? = some v → task.due = jsTrim v) ∧
      (∀ v, s.pendingTask.due? = some v → jsTrim v = v → task.due = v) := by
  refine ⟨⟨fresh, (s.pendingTask.title?.map jsTrim).getD "Untitled task",
    (s.pendingTask.due?.map jsTrim).getD "No due date",
    s.pendingTask.priority?.getD .Medium, s.pendingTask.reminder?.getD none⟩,
    ?_, ?_, ?_, ?_, ?_, ?_, ?_⟩
  · simp only [routeInput, hact, hstep, handleAddFlow, hy, if_true, showIdleOptions,
      resetConversation, pushMessage]
  · intro h; simp [h]
  · intro v h; simp [h]
  · intro v h htr; simp [h, htr]
  · intro h; simp [h]
  · intro v h; simp [h]
  · intro v h htr; simp [h, htr]

/-- A concrete Add-flow save-step state with an absent title draft and a
present due draft. -/
def cAdd6 : EngineState :=
  { mkIdle [] [cTask] with
    action := .add
    flowStep := 6
    pendingTask := ⟨none, some "D", some .High, none⟩ }

/-- Witness for `add_save_defaults` at a concrete save-step state. -/
theorem add_save_defaults_witness :
    ∃ task : TaskScheduler.Task,
      (routeInput "f" cAdd6 "yes").tasks = cAdd6.tasks ++ [task] ∧
      (cAdd6.pendingTask.title? = none → task.title = "Untitled task") ∧
      (∀ v, cAdd6.pendingTask.title? = some v → task.title = jsTrim v) ∧
      (∀ v, cAdd6.pendingTask.title? = some v → jsTrim v = v → task.title = v) ∧
      (cAdd6.pendingTask.due? = none → task.due = "No due date") ∧
      (∀ v, cAdd6.pendingTask.due? = some v → task.due = jsTrim v) ∧
      (∀ v, cAdd6.pendingTask.due? = some v → jsTrim v = v → task.due = v) :=
  add_save_defaults "f" cAdd6 "yes" rfl rfl rfl

/-! ### C9: persistence round-trip -/

/-- Decoding the JSON record of a task restores the task exactly. -/
theorem taskJson_round (t : TaskScheduler.Task) : jsonToTask? (taskToJson t) = some t := by
  rcases t with ⟨i, ti, d, p, r⟩
  cases p <;> cases r <;> rfl

/-- C9: serializing the task store and re-reading it at startup (the
textual `JSON.stringify`/`JSON.parse` pair being the platform's
identity on JSON trees) passes the load path's array check and restores
the same task sequence — same length and order, every field
preserved. -/
theorem persistence_round_trip (ts : List TaskScheduler.Task) :
    parseStored (storeToJson ts) = some (ts.map taskToJson) ∧
    (ts.map taskToJson).mapM jsonToTask? = some ts := by
  refine ⟨rfl, ?_⟩
  induction ts with
  | nil => rfl
  | cons t l ih =>
    rw [List.map_cons, List.mapM_cons, taskJson_round, ih]
    rfl

/-! ### C10: blank submissions through `handleSend` -/

/-- C10 (amended): a free-text submission whose content trims to empty
is a complete no-op, and so is a button tap whose payload is the empty
string; a button payload consisting only of whitespace, however, passes
the falsiness check untrimmed and is processed (see the
counterexample). -/
theorem blank_submission_noop (fresh : String) (s : EngineState) :
    (∀ box, jsTrim box = "" → handleSend fresh s none box = s) ∧
    (∀ box, handleSend fresh s (some "") box = s) := by
  constructor
  · intro box h
    simp only [handleSend, Option.getD_none, h]
    rfl
  · intro box
    rfl

/-- C10 counterexample: the whitespace-only text value " " submitted as
a button payload is not a no-op — `handleSend` only trims the typed
path, and " " is truthy, so a user message is appended and routed. -/
theorem whitespace_button_counterexample :
    handleSend "f" (mkIdle [] []) (some " ") "" ≠ mkIdle [] [] := by
  decide

/-- Witness for `blank_submission_noop`: typed whitespace is dropped. -/
theorem blank_submission_noop_witness :
    handleSend "f" (mkIdle [] []) none "  " = mkIdle [] [] :=
  (blank_submission_noop "f" (mkIdle [] [])).1 "  " rfl

end TaskScheduler
